import Mathlib

/-!
Verification development for the business-opportunities graph-construction
pipeline.  The Python sources under src/biz_opps are shallowly embedded:
pure routines become Lean functions over a model of Python run-time values,
fallible routines return Except, and the graph store is modelled as explicit
lists of nodes and relationships threaded through the builders.
-/

namespace BizOpps

/-- Model of a Python run-time value as it occurs in this code base:
None, bool, int, float (modelled exactly by a rational), str, list and dict
(string-keyed, as all dicts in the pipeline are).  Note that in Python
`bool` is a subclass of `int`; the constructors here are disjoint and the
subclass behaviour is reproduced in the isinstance checks below. -/
inductive PyVal where
  | pynone
  | bool (b : Bool)
  | int (n : ℤ)
  | float (q : ℚ)
  | str (s : String)
  | list (xs : List PyVal)
  | dict (entries : List (String × PyVal))
deriving Repr

/-- Structural decidable equality for `PyVal` (spelled out because the nested
occurrence of `List` defeats the automatic deriver). -/
def PyVal.decEq : (a b : PyVal) → Decidable (a = b)
  | .pynone, .pynone => isTrue rfl
  | .bool a, .bool b =>
      if h : a = b then isTrue (by rw [h]) else isFalse (by intro hc; injection hc; contradiction)
  | .int a, .int b =>
      if h : a = b then isTrue (by rw [h]) else isFalse (by intro hc; injection hc; contradiction)
  | .float a, .float b =>
      if h : a = b then isTrue (by rw [h]) else isFalse (by intro hc; injection hc; contradiction)
  | .str a, .str b =>
      if h : a = b then isTrue (by rw [h]) else isFalse (by intro hc; injection hc; contradiction)
  | .list as, .list bs =>
      let rec decL : (xs ys : List PyVal) → Decidable (xs = ys)
        | [], [] => isTrue rfl
        | [], _ :: _ => isFalse (by intro hc; exact List.noConfusion hc)
        | _ :: _, [] => isFalse (by intro hc; exact List.noConfusion hc)
        | x :: xs, y :: ys =>
          match PyVal.decEq x y, decL xs ys with
          | isTrue h1, isTrue h2 => isTrue (by rw [h1, h2])
          | isFalse h1, _ => isFalse (by intro hc; injection hc; contradiction)
          | isTrue _, isFalse h2 => isFalse (by intro hc; injection hc; contradiction)
      match decL as bs with
      | isTrue h => isTrue (by rw [h])
      | isFalse h => isFalse (by intro hc; injection hc; contradiction)
  | .dict as, .dict bs =>
      let rec decD : (xs ys : List (String × PyVal)) → Decidable (xs = ys)
        | [], [] => isTrue rfl
        | [], _ :: _ => isFalse (by intro hc; exact List.noConfusion hc)
        | _ :: _, [] => isFalse (by intro hc; exact List.noConfusion hc)
        | (k, x) :: xs, (k2, y) :: ys =>
          if hk : k = k2 then
            match PyVal.decEq x y, decD xs ys with
            | isTrue h1, isTrue h2 => isTrue (by rw [hk, h1, h2])
            | isFalse h1, _ =>
                isFalse (by intro hc; injection hc with hp _; injection hp; contradiction)
            | isTrue _, isFalse h2 => isFalse (by intro hc; injection hc; contradiction)
          else
            isFalse (by intro hc; injection hc with hp _; injection hp; contradiction)
      match decD as bs with
      | isTrue h => isTrue (by rw [h])
      | isFalse h => isFalse (by intro hc; injection hc; contradiction)
  | .pynone, .bool _ | .pynone, .int _ | .pynone, .float _ | .pynone, .str _
  | .pynone, .list _ | .pynone, .dict _
  | .bool _, .pynone | .bool _, .int _ | .bool _, .float _ | .bool _, .str _
  | .bool _, .list _ | .bool _, .dict _
  | .int _, .pynone | .int _, .bool _ | .int _, .float _ | .int _, .str _
  | .int _, .list _ | .int _, .dict _
  | .float _, .pynone | .float _, .bool _ | .float _, .int _ | .float _, .str _
  | .float _, .list _ | .float _, .dict _
  | .str _, .pynone | .str _, .bool _ | .str _, .int _ | .str _, .float _
  | .str _, .list _ | .str _, .dict _
  | .list _, .pynone | .list _, .bool _ | .list _, .int _ | .list _, .float _
  | .list _, .str _ | .list _, .dict _
  | .dict _, .pynone | .dict _, .bool _ | .dict _, .int _ | .dict _, .float _
  | .dict _, .str _ | .dict _, .list _ => isFalse (fun h => PyVal.noConfusion h)

instance : DecidableEq PyVal := PyVal.decEq

/-- Python truthiness (`if x:`): None, False, 0, empty string, empty list and
empty dict are falsy, everything else is truthy. -/
def pyTruthy : PyVal → Bool
  | .pynone => false
  | .bool b => b
  | .int n => n != 0
  | .float q => q != 0
  | .str s => s ≠ ""
  | .list xs => !xs.isEmpty
  | .dict es => !es.isEmpty

/-- The value `x is None` tests for. -/
def PyVal.isNone : PyVal → Bool
  | .pynone => true
  | _ => false

/-- Numeric view of a Python value: bool, int and float all carry a numeric
value (True is 1), other values are not numbers. -/
def pyToRat : PyVal → Option ℚ
  | .bool b => some (if b then 1 else 0)
  | .int n => some n
  | .float q => some q
  | _ => none

/-- Python `==`: numeric values compare by value across bool/int/float;
other values compare structurally. -/
def pyEq (a b : PyVal) : Bool :=
  match pyToRat a, pyToRat b with
  | some x, some y => x == y
  | _, _ => a == b

instance {e a : Type} [DecidableEq e] [DecidableEq a] : DecidableEq (Except e a) := fun x y =>
  match x, y with
  | .ok u, .ok v =>
      if h : u = v then isTrue (by rw [h]) else isFalse (by intro hc; injection hc; contradiction)
  | .error u, .error v =>
      if h : u = v then isTrue (by rw [h]) else isFalse (by intro hc; injection hc; contradiction)
  | .ok _, .error _ => isFalse (fun h => Except.noConfusion h)
  | .error _, .ok _ => isFalse (fun h => Except.noConfusion h)

/-- Errors raised by the validation layer. -/
inductive PyError where
  | valueError (msg : String)
  | typeError (msg : String)
  | keyError (key : String)
  | attributeError
deriving Repr, DecidableEq

/-- Python `container.get(key)` (dicts only have `.get`): a dict returns the
mapped value or None, anything else raises AttributeError. -/
def pyDotGet (v : PyVal) (key : String) : Except PyError PyVal :=
  match v with
  | .dict es => .ok ((List.lookup key es).getD .pynone)
  | _ => .error .attributeError

/-- Python subscript `container[key]` for the string-keyed dicts of this code
base: missing key raises KeyError, non-dict raises TypeError. -/
def pySubscript (v : PyVal) (key : String) : Except PyError PyVal :=
  match v with
  | .dict es =>
      match List.lookup key es with
      | some w => .ok w
      | none => .error (.keyError key)
  | _ => .error (.typeError "value is not subscriptable")

/-- Python `container.keys()` for dicts; non-dicts raise AttributeError. -/
def pyKeys (v : PyVal) : Except PyError (List String) :=
  match v with
  | .dict es => .ok (es.map Prod.fst)
  | _ => .error .attributeError

/-- Python `container.items()` for dicts; non-dicts raise AttributeError. -/
def pyItems (v : PyVal) : Except PyError (List (String × PyVal)) :=
  match v with
  | .dict es => .ok es
  | _ => .error .attributeError

/-- Python `item in container` for the containers the schema uses (lists and
dicts); an en passant membership test on any other value is a TypeError. -/
def pyContains (container item : PyVal) : Except PyError Bool :=
  match container with
  | .list xs => .ok (xs.any (pyEq item))
  | .dict es => .ok (es.any (fun kv => pyEq item (.str kv.1)))
  | _ => .error (.typeError "argument is not iterable")

/-- Python `<` as used by the range check: numbers (bool/int/float) compare by
value, strings lexicographically, anything else raises TypeError. -/
def pyLt (a b : PyVal) : Except PyError Bool :=
  match pyToRat a, pyToRat b with
  | some x, some y => .ok (decide (x < y))
  | _, _ =>
      match a, b with
      | .str s, .str t => .ok (decide (s < t))
      | _, _ => .error (.typeError "values are not orderable")

/-- ASCII uppercase of a character, as Python str.upper acts on the schema
type names used here. -/
def upperChar (c : Char) : Char :=
  if c.toNat ≥ 97 && c.toNat ≤ 122 then Char.ofNat (c.toNat - 32) else c

/-- Python str.upper for the ASCII type names of the schema. -/
def pyUpper (s : String) : String := ⟨s.data.map upperChar⟩

/-- Embeds the VALIDATORS table of validation.py (lines 4-19), applied to one
argument as validate_property does at line 57: isinstance(x, int) also
accepts bool (a subclass), isinstance(x, (float, int)) accepts bool, int and
float, POINT requires a dict with numeric latitude and longitude.  The ENUM
entry is a two-argument lambda, so the one-argument call made by
validate_property raises TypeError.  An unknown type name falls back to the
default lambda x: False. -/
def VALIDATORS (name : String) (x : PyVal) : Except PyError Bool :=
  match name with
  | "STRING" => .ok (match x with | .str _ => true | _ => false)
  | "INTEGER" => .ok (match x with | .bool _ => true | .int _ => true | _ => false)
  | "FLOAT" =>
      .ok (match x with | .bool _ => true | .int _ => true | .float _ => true | _ => false)
  | "BOOLEAN" => .ok (match x with | .bool _ => true | _ => false)
  | "POINT" =>
      .ok (match x with
        | .dict es =>
            (match List.lookup "latitude" es with
             | some v => (pyToRat v).isSome
             | none => false) &&
            (match List.lookup "longitude" es with
             | some v => (pyToRat v).isSome
             | none => false)
        | _ => false)
  | "LIST" => .ok (match x with | .list _ => true | _ => false)
  | "MAP" => .ok (match x with | .dict _ => true | _ => false)
  | "ENUM" => .error (.typeError "missing 1 required positional argument")
  | _ => .ok false

/-- Embeds validate_property (validation.py lines 24-80): reads the property
value with .get (absent becomes None), then applies the exists, type, enum
and range checks in order. -/
def validate_property (node_or_rel_data : PyVal) (property_name : String)
    (property_constraints : PyVal) : Except PyError Unit := do
  let props ← pySubscript node_or_rel_data "properties"
  let property_value ← pyDotGet props property_name
  let existsFlag ← pyDotGet property_constraints "exists"
  let property_type ← pyDotGet property_constraints "type"
  let enumSpec ← pyDotGet property_constraints "enum"
  let numeric_range ← pyDotGet property_constraints "range"
  if pyTruthy existsFlag && property_value.isNone then
    throw (.valueError ("Property " ++ property_name ++ " must exist but is missing."))
  else if !pyTruthy existsFlag && property_value.isNone then
    return ()
  else
    if pyTruthy property_type then
      match property_type with
      | .str s => do
          let ok ← VALIDATORS (pyUpper s) property_value
          if !ok then
            throw (.typeError ("Property " ++ property_name ++ " has the wrong type."))
      | _ => throw .attributeError
    if pyTruthy enumSpec then
      let isMember ← pyContains enumSpec property_value
      if !isMember then
        throw (.valueError ("Property " ++ property_name ++ " is not an allowed value."))
    if pyTruthy numeric_range then
      let min_value ← pyDotGet numeric_range "min"
      let max_value ← pyDotGet numeric_range "max"
      if !min_value.isNone then
        let lt ← pyLt property_value min_value
        if lt then
          throw (.valueError ("Property " ++ property_name ++ " must be at least the minimum."))
      if !max_value.isNone then
        let gt ← pyLt max_value property_value
        if gt then
          throw (.valueError ("Property " ++ property_name ++ " must be at most the maximum."))
    return ()

/-- Embeds validate_data (validation.py lines 83-121).  Note that the
missing-required scan (source lines 111-115) and the per-property loop
(source lines 120-121) iterate over node_or_rel_constraints.items(), i.e.
over the per-label schema dict whose keys are entries such as "properties",
not over node_or_rel_constraints["properties"].items(); the embedding
reproduces that level faithfully. -/
def validate_data (node_or_rel_data constraints : PyVal) (is_relationship : Bool) :
    Except PyError Unit := do
  let label ← pySubscript node_or_rel_data "label"
  let labelTable ←
    pyDotGet constraints (if is_relationship then "relationships" else "nodes")
  let node_or_rel_constraints ←
    match label with
    | .str l => pyDotGet labelTable l
    | _ =>
        match labelTable with
        | .dict _ => pure PyVal.pynone
        | _ => throw .attributeError
  if !pyTruthy node_or_rel_constraints then
    throw (.valueError "No constraints found for label.")
  let props ← pySubscript node_or_rel_data "properties"
  let node_or_rel_property_keys ← pyKeys props
  let schemaProps ← pySubscript node_or_rel_constraints "properties"
  let schema_property_keys ← pyKeys schemaProps
  let extra_properties :=
    node_or_rel_property_keys.filter (fun k => !schema_property_keys.contains k)
  if !extra_properties.isEmpty then
    throw (.valueError "Extra properties found in data.")
  let entries ← pyItems node_or_rel_constraints
  let mut missing_properties : List String := []
  for kv in entries do
    let ex ← pyDotGet kv.2 "exists"
    if pyTruthy ex && !node_or_rel_property_keys.contains kv.1 then
      missing_properties := missing_properties ++ [kv.1]
  if !missing_properties.isEmpty then
    throw (.valueError "Missing required properties.")
  for kv in entries do
    validate_property node_or_rel_data kv.1 kv.2
  return ()

end BizOpps

namespace BizOpps

/-- A node-schema catalog declaring a City label whose city_id property is
required (exists) and typed STRING, in the shape constraints_schema.json is
loaded into by load_constraints. -/
def required_absent_constraints : PyVal :=
  .dict [("nodes", .dict [("City", .dict [("properties",
    .dict [("city_id", .dict [("type", .str "STRING"), ("exists", .bool true)])])])])]

/-- A City entity that omits the required city_id property. -/
def required_absent_data : PyVal := .dict [("label", .str "City"), ("properties", .dict [])]

/-- C2: claimed, validation of an entity fails whenever a property declared
required is absent.  The code does not: validate_data scans for required
properties over the per-label schema dict itself (whose only key is
"properties"), not over the declared property map, so an entity missing a
required property passes validate_data, even though the per-property routine
validate_property, invoked on the actual declaration, would reject it. -/
theorem C2_required_absent_accepted :
    validate_data required_absent_data required_absent_constraints false = .ok () ∧
    validate_property required_absent_data "city_id"
      (.dict [("type", .str "STRING"), ("exists", .bool true)]) =
      .error (.valueError "Property city_id must exist but is missing.") :=
  ⟨rfl, rfl⟩

/-- A node-schema catalog declaring a Thing label whose count property is a
required INTEGER with declared range min 0, max 10. -/
def range_constraints : PyVal :=
  .dict [("nodes", .dict [("Thing", .dict [("properties",
    .dict [("count", .dict [("type", .str "INTEGER"), ("exists", .bool true),
      ("range", .dict [("min", .int 0), ("max", .int 10)])])])])])]

/-- A Thing entity whose count lies strictly above the declared maximum. -/
def range_data_above_max : PyVal :=
  .dict [("label", .str "Thing"), ("properties", .dict [("count", .int 11)])]

/-- The range declaration of the count property, as validate_property would
receive it if validate_data passed declarations at the right level. -/
def count_range_spec : PyVal :=
  .dict [("type", .str "INTEGER"), ("exists", .bool true),
    ("range", .dict [("min", .int 0), ("max", .int 10)])]

/-- C6: claimed, entity validation rejects values strictly outside a declared
inclusive range.  The code does not: because validate_data iterates the
per-label schema dict instead of its property map, the range check is never
reached, and an entity with count 11 against range min 0 max 10 passes
validate_data.  The per-property routine validate_property itself does
implement the claimed inclusive-bounds semantics: it accepts the bounds 0
and 10 and rejects -1 and 11. -/
theorem C6_range_not_enforced_by_validate_data :
    validate_data range_data_above_max range_constraints false = .ok () ∧
    validate_property range_data_above_max "count" count_range_spec =
      .error (.valueError "Property count must be at most the maximum.") ∧
    validate_property
      (.dict [("label", .str "Thing"), ("properties", .dict [("count", .int 0)])])
      "count" count_range_spec = .ok () ∧
    validate_property
      (.dict [("label", .str "Thing"), ("properties", .dict [("count", .int 10)])])
      "count" count_range_spec = .ok () ∧
    validate_property
      (.dict [("label", .str "Thing"), ("properties", .dict [("count", .int (-1))])])
      "count" count_range_spec =
      .error (.valueError "Property count must be at least the minimum.") :=
  ⟨rfl, by decide, by decide, by decide, by decide⟩

/-- An entity carrying a single property x with the given value. -/
def single_property_data (v : PyVal) : PyVal :=
  .dict [("label", .str "T"), ("properties", .dict [("x", v)])]

/-- C10: the run-time type checks are not mutually exclusive: the FLOAT
validator accepts every int, and the INTEGER and FLOAT validators accept
booleans (Python bool being a subclass of int), so such values pass
validate_property type validation under those declarations. -/
theorem C10_type_checks_overlap :
    (∀ n : ℤ, VALIDATORS "FLOAT" (.int n) = .ok true) ∧
    (∀ b : Bool, VALIDATORS "INTEGER" (.bool b) = .ok true) ∧
    (∀ b : Bool, VALIDATORS "FLOAT" (.bool b) = .ok true) ∧
    (∀ n : ℤ, validate_property (single_property_data (.int n)) "x"
      (.dict [("type", .str "FLOAT")]) = .ok ()) ∧
    (∀ b : Bool, validate_property (single_property_data (.bool b)) "x"
      (.dict [("type", .str "INTEGER")]) = .ok ()) ∧
    (∀ b : Bool, validate_property (single_property_data (.bool b)) "x"
      (.dict [("type", .str "FLOAT")]) = .ok ()) :=
  ⟨fun _ => rfl, fun _ => rfl, fun _ => rfl, fun _ => rfl, fun _ => rfl, fun _ => rfl⟩

end BizOpps
namespace BizOpps

/-- Cypher SET r += map semantics: keys of the supplied map override, keys
absent from it keep their previous value. -/
def mergeProps (old new : List (String × PyVal)) : List (String × PyVal) :=
  new ++ old.filter (fun kv => (List.lookup kv.1 new).isNone)

/-- A relationship of the graph store: endpoint node identities (the nodes
the two MATCH clauses resolved), the relationship type, and its property
map. -/
structure GRel where
  start_id : ℕ
  end_id : ℕ
  rel_type : String
  props : List (String × PyVal)
deriving Repr, DecidableEq

/-- Whether a stored relationship is the one of the given type between the
given endpoint pair. -/
def relMatches (a b : ℕ) (t : String) (r : GRel) : Bool :=
  r.start_id == a && r.end_id == b && r.rel_type == t

/-- Embeds the Cypher run by create_relationship (construction.py lines
133-144) once the two MATCH clauses have resolved the endpoint nodes a and
b: MERGE (a)-[r:type]->(b) reuses every existing relationship of that type
between the pair or creates one, and SET r = rel_properties replaces the
matched relationship's whole property map. -/
def create_relationship (rels : List GRel) (a b : ℕ) (rel_type : String)
    (rel_properties : List (String × PyVal)) : List GRel :=
  if rels.any (relMatches a b rel_type) then
    rels.map (fun r =>
      if relMatches a b rel_type r then { r with props := rel_properties } else r)
  else
    rels ++ [⟨a, b, rel_type, rel_properties⟩]

/-- Embeds the Cypher run by update_relationship_properties (construction.py
lines 190-202): MATCH the relationship of the type between the resolved
endpoints and SET r += new_properties, an incremental merge. -/
def update_relationship_properties (rels : List GRel) (a b : ℕ) (rel_type : String)
    (new_properties : List (String × PyVal)) : List GRel :=
  rels.map (fun r =>
    if relMatches a b rel_type r then { r with props := mergeProps r.props new_properties }
    else r)

theorem lookup_append_py (k : String) (l1 l2 : List (String × PyVal)) :
    List.lookup k (l1 ++ l2) =
      (match List.lookup k l1 with
       | some v => some v
       | none => List.lookup k l2) := by
  induction l1 with
  | nil => simp [List.lookup]
  | cons kv rest ih =>
      by_cases h : k = kv.1
      · simp [List.lookup, h]
      · have hb : (k == kv.1) = false := by simp [h]
        simpa [List.lookup, hb] using ih

theorem lookup_filter_absentKeys (k : String) (old new : List (String × PyVal))
    (hk : List.lookup k new = none) :
    List.lookup k (old.filter (fun kv => (List.lookup kv.1 new).isNone)) =
      List.lookup k old := by
  induction old with
  | nil => simp
  | cons kv rest ih =>
      by_cases h : k = kv.1
      · subst h
        simp [List.filter, hk, List.lookup]
      · have hb : (k == kv.1) = false := by simp [h]
        by_cases hkeep : (List.lookup kv.1 new).isNone
        · simp [List.filter, hkeep, List.lookup, hb, ih]
        · simp [List.filter, hkeep, List.lookup, hb, ih]

theorem lookup_mergeProps (k : String) (old new : List (String × PyVal)) :
    List.lookup k (mergeProps old new) =
      (match List.lookup k new with
       | some v => some v
       | none => List.lookup k old) := by
  unfold mergeProps
  rw [lookup_append_py]
  cases h : List.lookup k new with
  | some v => simp
  | none => simp [lookup_filter_absentKeys k old new h]

end BizOpps
namespace BizOpps

theorem relMatches_set_props (a b : ℕ) (t : String) (r : GRel) (m : List (String × PyVal)) :
    relMatches a b t { r with props := m } = relMatches a b t r := rfl

/-- C7: the relationship upsert creates at most one relationship of the type
between the matched endpoint pair (given the store held at most one, the
store afterwards holds exactly one), and replaces that relationship's whole
property map with the supplied one, so a key absent from the supplied map no
longer resolves; the separate update operation instead merges incrementally,
keeping keys absent from the supplied map at their old values. -/
theorem C7_create_replaces_update_merges
    (rels : List GRel) (a b : ℕ) (t : String) (m : List (String × PyVal))
    (hinv : List.countP (relMatches a b t) rels ≤ 1) :
    List.countP (relMatches a b t) (create_relationship rels a b t m) = 1 ∧
    (∀ r ∈ create_relationship rels a b t m, relMatches a b t r = true → r.props = m) ∧
    (∀ r ∈ create_relationship rels a b t m, relMatches a b t r = true →
      ∀ k, List.lookup k m = none → List.lookup k r.props = none) ∧
    (∀ r ∈ rels, relMatches a b t r = true →
      ∃ r2 ∈ update_relationship_properties rels a b t m, relMatches a b t r2 = true ∧
        ∀ k, List.lookup k r2.props =
          (match List.lookup k m with
           | some v => some v
           | none => List.lookup k r.props)) := by
  have hcount : List.countP (relMatches a b t) (create_relationship rels a b t m) = 1 := by
    unfold create_relationship
    by_cases h : rels.any (relMatches a b t) = true
    · rw [if_pos h]
      have hmap : List.countP (relMatches a b t)
          (rels.map (fun r => if relMatches a b t r then { r with props := m } else r)) =
          List.countP (relMatches a b t) rels := by
        rw [List.countP_map]
        apply List.countP_congr
        intro r _
        by_cases hr : relMatches a b t r
        · simp [Function.comp, hr, relMatches_set_props]
        · simp [Function.comp, hr]
      rw [hmap]
      have hpos : 0 < List.countP (relMatches a b t) rels := by
        rw [List.countP_pos_iff]
        rcases List.any_eq_true.mp h with ⟨r, hr, hp⟩
        exact ⟨r, hr, hp⟩
      omega
    · rw [if_neg h]
      rw [List.countP_append]
      have h2 : rels.any (relMatches a b t) = false := by
        cases hx : rels.any (relMatches a b t)
        · rfl
        · exact absurd hx h
      have hzero : List.countP (relMatches a b t) rels = 0 := by
        rw [List.countP_eq_zero]
        exact List.any_eq_false.mp h2
      rw [hzero]
      simp [relMatches]
  have hprops : ∀ r ∈ create_relationship rels a b t m,
      relMatches a b t r = true → r.props = m := by
    intro r hr hm
    unfold create_relationship at hr
    by_cases h : rels.any (relMatches a b t) = true
    · rw [if_pos h] at hr
      rcases List.mem_map.mp hr with ⟨r0, _, rfl⟩
      by_cases h0 : relMatches a b t r0
      · simp [h0]
      · rw [if_neg h0] at hm ⊢
        exact absurd hm h0
    · rw [if_neg h] at hr
      have h2 : rels.any (relMatches a b t) = false := by
        cases hx : rels.any (relMatches a b t)
        · rfl
        · exact absurd hx h
      rcases List.mem_append.mp hr with hin | hnew
      · exact absurd hm (List.any_eq_false.mp h2 r hin)
      · rcases List.mem_singleton.mp hnew with rfl
        rfl
  refine ⟨hcount, hprops, ?_, ?_⟩
  · intro r hr hm k hk
    rw [hprops r hr hm]
    exact hk
  · intro r hr hm
    refine ⟨{ r with props := mergeProps r.props m }, ?_, ?_, ?_⟩
    · unfold update_relationship_properties
      exact List.mem_map.mpr ⟨r, hr, by rw [if_pos hm]⟩
    · exact hm
    · intro k
      exact lookup_mergeProps k r.props m

/-- A store holding one IS_WITHIN relationship between nodes 0 and 1 whose
property map carries a stale key. -/
def C7_rels : List GRel :=
  [⟨0, 1, "IS_WITHIN", [("containment_type", .str "Partial"), ("stale", .str "x")]⟩]

/-- The replacement property map supplied to the upsert. -/
def C7_props : List (String × PyVal) := [("containment_type", .str "Full")]

theorem C7_witness :
    List.countP (relMatches 0 1 "IS_WITHIN") C7_rels ≤ 1 ∧
    (List.countP (relMatches 0 1 "IS_WITHIN")
        (create_relationship C7_rels 0 1 "IS_WITHIN" C7_props) = 1 ∧
      (∀ r ∈ create_relationship C7_rels 0 1 "IS_WITHIN" C7_props,
        relMatches 0 1 "IS_WITHIN" r = true → r.props = C7_props) ∧
      (∀ r ∈ create_relationship C7_rels 0 1 "IS_WITHIN" C7_props,
        relMatches 0 1 "IS_WITHIN" r = true →
          ∀ k, List.lookup k C7_props = none → List.lookup k r.props = none) ∧
      (∀ r ∈ C7_rels, relMatches 0 1 "IS_WITHIN" r = true →
        ∃ r2 ∈ update_relationship_properties C7_rels 0 1 "IS_WITHIN" C7_props,
          relMatches 0 1 "IS_WITHIN" r2 = true ∧
            ∀ k, List.lookup k r2.props =
              (match List.lookup k C7_props with
               | some v => some v
               | none => List.lookup k r.props))) :=
  ⟨by decide, C7_create_replaces_update_merges C7_rels 0 1 "IS_WITHIN" C7_props (by decide)⟩

end BizOpps
namespace BizOpps

/-- One row of the spatial-intersection query of
create_block_group_zipcode_intersection (administrative_topology.py lines
603-613): the BlockGroup key, the two geometries (already parsed from their
well-known-text columns, wkt.loads being the external geometry library), and
the Zipcode key.  The geometry type G and its area and intersection
operations are parameters standing for the external planar-geometry
library. -/
structure IntersectionRecord (G : Type) where
  block_group : String
  bg_wkt : G
  zipcode : String
  z_wkt : G

/-- The arguments of one create_relationship call as issued by the ETL
builders. -/
structure RelSubmit where
  start_label : String
  start_props : List (String × PyVal)
  start_match_keys : List String
  end_label : String
  end_props : List (String × PyVal)
  end_match_keys : List String
  rel_type : String
  rel_properties : List (String × PyVal)
deriving Repr, DecidableEq

/-- A per-record failure entry of the BlockGroup-Zipcode batch. -/
structure IntersectFailure where
  block_group : String
  zipcode : String
  error : String
deriving Repr, DecidableEq

/-- Embeds the per-record body of create_block_group_zipcode_intersection
(administrative_topology.py lines 627-654): intersection area and BlockGroup
area from the geometry library, overlap_ratio their quotient - a Python
float division that raises ZeroDivisionError when the BlockGroup area is
zero, embedded as the error case - then the IS_WITHIN relationship carrying
containment_type Full iff overlap_ratio is strictly above 0.95, else
Partial, and always overlap_ratio itself. -/
def processIntersectionRecord {G : Type} (area : G → ℚ) (inter : G → G → G)
    (r : IntersectionRecord G) : Except String RelSubmit :=
  let intersection_area := area (inter r.bg_wkt r.z_wkt)
  let bg_area := area r.bg_wkt
  if bg_area = 0 then .error "float division by zero"
  else
    let overlap_ratio := intersection_area / bg_area
    .ok { start_label := "BlockGroup",
          start_props := [("ct_block_group", .str r.block_group)],
          start_match_keys := ["ct_block_group"],
          end_label := "Zipcode",
          end_props := [("zipcode_number", .str r.zipcode)],
          end_match_keys := ["zipcode_number"],
          rel_type := "IS_WITHIN",
          rel_properties :=
            [("containment_type", .str (if overlap_ratio > 95/100 then "Full" else "Partial")),
             ("overlap_ratio", .float overlap_ratio)] }

/-- Embeds the record loop of create_block_group_zipcode_intersection
(administrative_topology.py lines 621-666): each record is processed inside
its own try block; success appends the relationship write and bumps the
count, any per-record exception appends a failure entry with the pair's keys
and the loop continues with the next record. -/
def create_block_group_zipcode_intersection {G : Type} (area : G → ℚ) (inter : G → G → G)
    (records : List (IntersectionRecord G)) : ℕ × List IntersectFailure × List RelSubmit :=
  records.foldl
    (fun acc r =>
      match processIntersectionRecord area inter r with
      | .ok w => (acc.1 + 1, acc.2.1, acc.2.2 ++ [w])
      | .error e => (acc.1, acc.2.1 ++ [⟨r.block_group, r.zipcode, e⟩], acc.2.2))
    (0, [], [])

end BizOpps
namespace BizOpps

/-- C1: for every (BlockGroup, Zipcode) intersection row with a nonzero
BlockGroup area, the routine emits the IS_WITHIN relationship whose
overlap_ratio is area(intersection)/area(blockgroup), whose containment_type
is Full exactly when overlap_ratio is strictly above 0.95 and Partial
otherwise, and which always carries overlap_ratio; in particular ratio
0.9501 gives Full and ratio 0.95 gives Partial. -/
theorem C1_overlap_containment {G : Type} (area : G → ℚ) (inter : G → G → G)
    (r : IntersectionRecord G) (h : area r.bg_wkt ≠ 0) :
    ∃ w, processIntersectionRecord area inter r = .ok w ∧
      w.rel_type = "IS_WITHIN" ∧
      w.start_props = [("ct_block_group", .str r.block_group)] ∧
      w.end_props = [("zipcode_number", .str r.zipcode)] ∧
      List.lookup "overlap_ratio" w.rel_properties =
        some (.float (area (inter r.bg_wkt r.z_wkt) / area r.bg_wkt)) ∧
      (List.lookup "containment_type" w.rel_properties = some (.str "Full") ↔
        area (inter r.bg_wkt r.z_wkt) / area r.bg_wkt > 95/100) ∧
      (List.lookup "containment_type" w.rel_properties = some (.str "Partial") ↔
        ¬(area (inter r.bg_wkt r.z_wkt) / area r.bg_wkt > 95/100)) ∧
      (area (inter r.bg_wkt r.z_wkt) / area r.bg_wkt = 9501/10000 →
        List.lookup "containment_type" w.rel_properties = some (.str "Full")) ∧
      (area (inter r.bg_wkt r.z_wkt) / area r.bg_wkt = 95/100 →
        List.lookup "containment_type" w.rel_properties = some (.str "Partial")) := by
  simp only [processIntersectionRecord]
  rw [if_neg h]
  refine ⟨_, rfl, rfl, rfl, rfl, rfl, ?_, ?_, ?_, ?_⟩
  · by_cases hc : area (inter r.bg_wkt r.z_wkt) / area r.bg_wkt > 95/100
    · simp [List.lookup, hc]
    · simp [List.lookup, hc]
  · by_cases hc : area (inter r.bg_wkt r.z_wkt) / area r.bg_wkt > 95/100
    · simp [List.lookup, hc]
    · simp [List.lookup, hc]
  · intro hr
    rw [hr]
    norm_num [List.lookup]
  · intro hr
    rw [hr]
    norm_num [List.lookup]

end BizOpps
namespace BizOpps

/-- A concrete intersection row over the rational geometry model in which
area is the geometry itself and intersection takes the minimum: BlockGroup
area 10000, intersection area 9501, overlap ratio 0.9501. -/
def C1_record : IntersectionRecord ℚ := ⟨"060730083011", 10000, "92101", 9501⟩

theorem C1_witness :
    id C1_record.bg_wkt ≠ (0:ℚ) ∧
    (∃ w, processIntersectionRecord id min C1_record = .ok w ∧
      w.rel_type = "IS_WITHIN" ∧
      w.start_props = [("ct_block_group", .str C1_record.block_group)] ∧
      w.end_props = [("zipcode_number", .str C1_record.zipcode)] ∧
      List.lookup "overlap_ratio" w.rel_properties =
        some (.float (id (min C1_record.bg_wkt C1_record.z_wkt) / id C1_record.bg_wkt)) ∧
      (List.lookup "containment_type" w.rel_properties = some (.str "Full") ↔
        id (min C1_record.bg_wkt C1_record.z_wkt) / id C1_record.bg_wkt > 95/100) ∧
      (List.lookup "containment_type" w.rel_properties = some (.str "Partial") ↔
        ¬(id (min C1_record.bg_wkt C1_record.z_wkt) / id C1_record.bg_wkt > 95/100)) ∧
      (id (min C1_record.bg_wkt C1_record.z_wkt) / id C1_record.bg_wkt = 9501/10000 →
        List.lookup "containment_type" w.rel_properties = some (.str "Full")) ∧
      (id (min C1_record.bg_wkt C1_record.z_wkt) / id C1_record.bg_wkt = 95/100 →
        List.lookup "containment_type" w.rel_properties = some (.str "Partial"))) :=
  ⟨by norm_num [C1_record], C1_overlap_containment id min C1_record (by norm_num [C1_record])⟩

end BizOpps
namespace BizOpps

/-- The failure entries the intersection batch accumulates. -/
def intersectionFailures {G : Type} (area : G → ℚ) (inter : G → G → G)
    (records : List (IntersectionRecord G)) : List IntersectFailure :=
  records.filterMap (fun r =>
    match processIntersectionRecord area inter r with
    | .error e => some ⟨r.block_group, r.zipcode, e⟩
    | .ok _ => none)

/-- The relationship writes the intersection batch issues. -/
def intersectionWrites {G : Type} (area : G → ℚ) (inter : G → G → G)
    (records : List (IntersectionRecord G)) : List RelSubmit :=
  records.filterMap (fun r =>
    match processIntersectionRecord area inter r with
    | .ok w => some w
    | .error _ => none)

theorem create_block_group_zipcode_intersection_eq {G : Type} (area : G → ℚ)
    (inter : G → G → G) (records : List (IntersectionRecord G)) :
    create_block_group_zipcode_intersection area inter records =
      ((intersectionWrites area inter records).length,
       intersectionFailures area inter records,
       intersectionWrites area inter records) := by
  have key : ∀ (rs : List (IntersectionRecord G)) (init : ℕ × List IntersectFailure × List RelSubmit),
      rs.foldl
        (fun acc r =>
          match processIntersectionRecord area inter r with
          | .ok w => (acc.1 + 1, acc.2.1, acc.2.2 ++ [w])
          | .error e => (acc.1, acc.2.1 ++ [⟨r.block_group, r.zipcode, e⟩], acc.2.2))
        init =
      (init.1 + (intersectionWrites area inter rs).length,
       init.2.1 ++ intersectionFailures area inter rs,
       init.2.2 ++ intersectionWrites area inter rs) := by
    intro rs
    induction rs with
    | nil => intro init; simp [intersectionWrites, intersectionFailures]
    | cons r rest ih =>
        intro init
        simp only [List.foldl_cons]
        cases hp : processIntersectionRecord area inter r with
        | ok w =>
            rw [ih]
            simp [intersectionWrites, intersectionFailures, hp]
            omega
        | error e =>
            rw [ih]
            simp [intersectionWrites, intersectionFailures, hp]
  unfold create_block_group_zipcode_intersection
  rw [key records (0, [], [])]
  simp

/-- C4: a zero-area BlockGroup polygon makes the overlap ratio undefined;
the per-record handler turns the division error into a failure entry naming
the pair, and the batch goes on to process every other record exactly as it
would have without the failing one: same success count and same relationship
writes. -/
theorem C4_zero_area_guarded {G : Type} (area : G → ℚ) (inter : G → G → G)
    (pre post : List (IntersectionRecord G)) (r : IntersectionRecord G)
    (h : area r.bg_wkt = 0) :
    processIntersectionRecord area inter r = .error "float division by zero" ∧
    (create_block_group_zipcode_intersection area inter (pre ++ r :: post)).2.1 =
      (create_block_group_zipcode_intersection area inter pre).2.1 ++
        ⟨r.block_group, r.zipcode, "float division by zero"⟩ ::
          (create_block_group_zipcode_intersection area inter post).2.1 ∧
    (create_block_group_zipcode_intersection area inter (pre ++ r :: post)).1 =
      (create_block_group_zipcode_intersection area inter (pre ++ post)).1 ∧
    (create_block_group_zipcode_intersection area inter (pre ++ r :: post)).2.2 =
      (create_block_group_zipcode_intersection area inter (pre ++ post)).2.2 := by
  have hp : processIntersectionRecord area inter r = .error "float division by zero" := by
    simp only [processIntersectionRecord]
    rw [if_pos h]
  refine ⟨hp, ?_, ?_, ?_⟩
  · simp only [create_block_group_zipcode_intersection_eq]
    show intersectionFailures area inter (pre ++ r :: post) = _
    simp [intersectionFailures, List.filterMap_append, hp]
  · simp only [create_block_group_zipcode_intersection_eq]
    show (intersectionWrites area inter (pre ++ r :: post)).length = _
    simp [intersectionWrites, List.filterMap_append, hp]
  · simp only [create_block_group_zipcode_intersection_eq]
    show intersectionWrites area inter (pre ++ r :: post) = _
    simp [intersectionWrites, List.filterMap_append, hp]

end BizOpps
namespace BizOpps

/-- An intersection row whose BlockGroup polygon has zero area. -/
def C4_zero_record : IntersectionRecord ℚ := ⟨"060730084001", 0, "92103", 5⟩

/-- A record processed before the zero-area one. -/
def C4_pre : List (IntersectionRecord ℚ) := [⟨"060730084002", 100, "92104", 40⟩]

/-- A record processed after the zero-area one. -/
def C4_post : List (IntersectionRecord ℚ) := [⟨"060730084003", 200, "92105", 199⟩]

theorem C4_witness :
    id C4_zero_record.bg_wkt = (0:ℚ) ∧
    (processIntersectionRecord id min C4_zero_record = .error "float division by zero" ∧
    (create_block_group_zipcode_intersection id min (C4_pre ++ C4_zero_record :: C4_post)).2.1 =
      (create_block_group_zipcode_intersection id min C4_pre).2.1 ++
        ⟨C4_zero_record.block_group, C4_zero_record.zipcode, "float division by zero"⟩ ::
          (create_block_group_zipcode_intersection id min C4_post).2.1 ∧
    (create_block_group_zipcode_intersection id min (C4_pre ++ C4_zero_record :: C4_post)).1 =
      (create_block_group_zipcode_intersection id min (C4_pre ++ C4_post)).1 ∧
    (create_block_group_zipcode_intersection id min (C4_pre ++ C4_zero_record :: C4_post)).2.2 =
      (create_block_group_zipcode_intersection id min (C4_pre ++ C4_post)).2.2) :=
  ⟨rfl, C4_zero_area_guarded id min C4_pre C4_post C4_zero_record rfl⟩

end BizOpps
namespace BizOpps

/-- A prepared enrichment input record: pandas row access by column name,
with every column used by the classifiers carried as a numeric value. -/
def Row : Type := String → ℚ

/-- Embeds determine_population_level (geoenrichment.py lines 112-121). -/
def determine_population_level (value : ℚ) : List (List (String × PyVal)) × List ℚ :=
  ([[("level", .str (if value < 1000 then "LOW" else if value ≤ 2000 then "MEDIUM"
      else "HIGH"))]], [value])

/-- Embeds determine_growth_rate (geoenrichment.py lines 124-137). -/
def determine_growth_rate (value : ℚ) : List (List (String × PyVal)) × List ℚ :=
  ([[("growth_rate", .str (if value < 0 then "NEGATIVE" else if value ≤ 1 then "LOW"
      else if value ≤ 2 then "MODERATE" else if value ≤ 3 then "HIGH"
      else "VERY_HIGH"))]], [value])

/-- Embeds determine_age_average (geoenrichment.py lines 140-155). -/
def determine_age_average (value : ℚ) : List (List (String × PyVal)) × List ℚ :=
  ([[("group", .str (if value < 5 then "0-4" else if value < 15 then "5-14"
      else if value < 25 then "15-24" else if value < 45 then "25-44"
      else if value < 65 then "45-64" else "65+"))]], [value])

/-- The inner get_representation_level of determine_age_group_representations
(geoenrichment.py lines 162-172). -/
def age_representation_level (x : ℚ) : String :=
  if x < 5/100 then "VERY_LOW" else if x < 10/100 then "LOW"
  else if x < 20/100 then "MODERATE" else if x < 30/100 then "HIGH" else "DOMINANT"

/-- The age_group_aggregations dict of determine_age_group_representations
(geoenrichment.py lines 174-204), in insertion order. -/
def age_group_aggregations (row : Row) : List (String × ℚ) :=
  [("0-4", row "male0" + row "fem0"),
   ("5-14", row "male5" + row "male10" + row "fem5" + row "fem10"),
   ("15-24", row "male15" + row "male20" + row "fem15" + row "fem20"),
   ("25-44", row "male25" + row "male30" + row "male35" + row "male40"
     + row "fem25" + row "fem30" + row "fem35" + row "fem40"),
   ("45-64", row "male45" + row "male50" + row "male55" + row "male60"
     + row "fem45" + row "fem50" + row "fem55" + row "fem60"),
   ("65+", row "male65" + row "male70" + row "male75" + row "male80" + row "male85"
     + row "fem65" + row "fem70" + row "fem75" + row "fem80" + row "fem85")]

/-- Embeds determine_age_group_representations (geoenrichment.py lines
158-225): with zero total population every group gets the lowest category
VERY_LOW with source value 0.0, otherwise each group's share of the total is
bucketed. -/
def determine_age_group_representations (row : Row) :
    List (List (String × PyVal)) × List ℚ :=
  if row "totpop_cy" = 0 then
    ((age_group_aggregations row).map
       (fun g => [("group", .str g.1), ("representation", .str "VERY_LOW")]),
     (age_group_aggregations row).map (fun _ => 0))
  else
    ((age_group_aggregations row).map
       (fun g => [("group", .str g.1),
         ("representation", .str (age_representation_level (g.2 / row "totpop_cy")))]),
     (age_group_aggregations row).map (fun g => g.2 / row "totpop_cy"))

/-- Embeds determine_wealth_category (geoenrichment.py lines 228-241). -/
def determine_wealth_category (value : ℚ) : List (List (String × PyVal)) × List ℚ :=
  ([[("category", .str (if value ≤ 2/10 then "LOW" else if value ≤ 4/10 then "LOWER_MIDDLE"
      else if value ≤ 6/10 then "MIDDLE" else if value ≤ 8/10 then "UPPER_MIDDLE"
      else "HIGH"))]], [value])

/-- The education_levels dict of determine_education_level (geoenrichment.py
lines 246-250), in insertion order. -/
def education_levels (row : Row) : List (String × ℚ) :=
  [("BASIC", row "BASIC"), ("SECONDARY", row "SECONDARY"), ("HIGHER", row "HIGHER")]

/-- The inner get_representation_level of determine_education_level
(geoenrichment.py lines 252-262). -/
def education_representation_level (x : ℚ) : String :=
  if x < 5/100 then "VERY_LOW" else if x < 15/100 then "LOW"
  else if x < 30/100 then "MODERATE" else if x < 50/100 then "HIGH" else "VERY_HIGH"

/-- Embeds determine_education_level (geoenrichment.py lines 244-286): with
zero total population every level gets the lowest category VERY_LOW with
source value 0.0, otherwise each level's share of the total is bucketed. -/
def determine_education_level (row : Row) : List (List (String × PyVal)) × List ℚ :=
  if row "totpop_cy" = 0 then
    ((education_levels row).map
       (fun g => [("level", .str g.1), ("representation", .str "VERY_LOW")]),
     (education_levels row).map (fun _ => 0))
  else
    ((education_levels row).map
       (fun g => [("level", .str g.1),
         ("representation", .str (education_representation_level (g.2 / row "totpop_cy")))]),
     (education_levels row).map (fun g => g.2 / row "totpop_cy"))

/-- Embeds determine_crime_level (geoenrichment.py lines 289-302). -/
def determine_crime_level (value : ℚ) : List (List (String × PyVal)) × List ℚ :=
  ([[("category", .str (if value < 80 then "SAFEST" else if value ≤ 119 then "SAFE"
      else if value ≤ 199 then "MODERATE" else if value ≤ 499 then "UNSAFE"
      else "MOST_UNSAFE"))]], [value])

/-- Embeds determine_spending_level (geoenrichment.py lines 305-318). -/
def determine_spending_level (value : ℚ) : List (List (String × PyVal)) × List ℚ :=
  ([[("category", .str (if value ≤ 2/10 then "OCCASIONAL"
      else if value ≤ 4/10 then "LIGHT_SPENDER" else if value ≤ 6/10 then "REGULAR"
      else if value ≤ 8/10 then "ENTHUSIAST" else "SUPER_FAN"))]], [value])

/-- C3: for an enrichment record with zero total population, every age-group
bucket and every education bucket equals the lowest category VERY_LOW with
source value exactly 0.0; the outputs are a fixed literal independent of
every other column, so no division by the zero population occurs. -/
theorem C3_zero_population_guard (row : Row) (h : row "totpop_cy" = 0) :
    determine_age_group_representations row =
      ([[("group", .str "0-4"), ("representation", .str "VERY_LOW")],
        [("group", .str "5-14"), ("representation", .str "VERY_LOW")],
        [("group", .str "15-24"), ("representation", .str "VERY_LOW")],
        [("group", .str "25-44"), ("representation", .str "VERY_LOW")],
        [("group", .str "45-64"), ("representation", .str "VERY_LOW")],
        [("group", .str "65+"), ("representation", .str "VERY_LOW")]],
       [0, 0, 0, 0, 0, 0]) ∧
    determine_education_level row =
      ([[("level", .str "BASIC"), ("representation", .str "VERY_LOW")],
        [("level", .str "SECONDARY"), ("representation", .str "VERY_LOW")],
        [("level", .str "HIGHER"), ("representation", .str "VERY_LOW")]],
       [0, 0, 0]) := by
  constructor
  · simp [determine_age_group_representations, h, age_group_aggregations]
  · simp [determine_education_level, h, education_levels]

theorem C3_witness :
    (fun _ : String => (0:ℚ)) "totpop_cy" = 0 ∧
    (determine_age_group_representations (fun _ => 0) =
      ([[("group", .str "0-4"), ("representation", .str "VERY_LOW")],
        [("group", .str "5-14"), ("representation", .str "VERY_LOW")],
        [("group", .str "15-24"), ("representation", .str "VERY_LOW")],
        [("group", .str "25-44"), ("representation", .str "VERY_LOW")],
        [("group", .str "45-64"), ("representation", .str "VERY_LOW")],
        [("group", .str "65+"), ("representation", .str "VERY_LOW")]],
       [0, 0, 0, 0, 0, 0]) ∧
    determine_education_level (fun _ => 0) =
      ([[("level", .str "BASIC"), ("representation", .str "VERY_LOW")],
        [("level", .str "SECONDARY"), ("representation", .str "VERY_LOW")],
        [("level", .str "HIGHER"), ("representation", .str "VERY_LOW")]],
       [0, 0, 0])) :=
  ⟨rfl, C3_zero_population_guard (fun _ => 0) rfl⟩

end BizOpps
namespace BizOpps

/-- Rendering of a numeric value as Python str() produces for the
source_value relationship property (geoenrichment.py line 460); an injective
decimal-free rendering standing in for the decimal text Python prints. -/
def pyRatStr (q : ℚ) : String :=
  if q.den = 1 then toString q.num else toString q.num ++ "/" ++ toString q.den

/-- Python str(int(x)): int() truncates toward zero, which integer division
of numerator by denominator gives. -/
def pyTruncStr (q : ℚ) : String := toString (q.num / (q.den : ℤ))

/-- The ct_block_group key built at geoenrichment.py line 428:
str(int(row[tractce])) + str(row[blkgrpce]). -/
def ct_block_group_of (row : Row) : String :=
  pyTruncStr (row "tractce") ++ pyRatStr (row "blkgrpce")

/-- The enrichments dict built per record at geoenrichment.py lines 431-442,
in insertion order: each metric name mapped to the classifier output
(category combinations and their source values). -/
def enrichmentsFor (row : Row) :
    List (String × (List (List (String × PyVal)) × List ℚ)) :=
  [("TotalPopulation", determine_population_level (row "totpop_cy")),
   ("PopulationGrowth", determine_growth_rate (row "popgrwcyfy")),
   ("AgeAverage", determine_age_average (row "avg_age")),
   ("AgeGroup", determine_age_group_representations row),
   ("WealthIndex", determine_wealth_category (row "normalized_wlthindxcy")),
   ("EducationLevel", determine_education_level row),
   ("CrimeIndex", determine_crime_level (row "crmcytotc")),
   ("FastFoodSpendingIndex", determine_spending_level (row "normalized_fastfoodspending"))]

/-- Embeds the double loop of create_enrichment_relationships
(geoenrichment.py lines 443-462) for one record: for every enrichment type
and every zipped (combination, source value) pair, one create_relationship
call from the BlockGroup to the category node with the stringified source
value as the single relationship property. -/
def create_enrichment_relationships_row (row : Row) : List RelSubmit :=
  (enrichmentsFor row).flatMap (fun e =>
    (e.2.1.zip e.2.2).map (fun cv =>
      { start_label := "BlockGroup",
        start_props := [("ct_block_group", .str (ct_block_group_of row))],
        start_match_keys := ["ct_block_group"],
        end_label := e.1,
        end_props := cv.1,
        end_match_keys := cv.1.map Prod.fst,
        rel_type := "HAS_ENRICHMENT",
        rel_properties := [("source_value", .str (pyRatStr cv.2))] }))

/-- The (metric, bucket, source value) triples the classifier produces for a
record. -/
def enrichmentPairs (row : Row) : List (String × List (String × PyVal) × ℚ) :=
  (enrichmentsFor row).flatMap (fun e =>
    (e.2.1.zip e.2.2).map (fun cv => (e.1, cv.1, cv.2)))

/-- The HAS_ENRICHMENT edge a (metric, bucket, source value) triple maps to. -/
def mkEnrichmentWrite (row : Row) (p : String × List (String × PyVal) × ℚ) : RelSubmit :=
  { start_label := "BlockGroup",
    start_props := [("ct_block_group", .str (ct_block_group_of row))],
    start_match_keys := ["ct_block_group"],
    end_label := p.1,
    end_props := p.2.1,
    end_match_keys := p.2.1.map Prod.fst,
    rel_type := "HAS_ENRICHMENT",
    rel_properties := [("source_value", .str (pyRatStr p.2.2))] }

/-- C8: the edges written for a record are exactly one HAS_ENRICHMENT edge
per (metric, bucket) pair the classifier produces, carrying that pair's
underlying numeric value (as Python stringifies it) as source_value: the
write list is the image of the produced triples, and the produced (metric,
bucket) pairs are pairwise distinct. -/
theorem C8_one_edge_per_pair (row : Row) :
    create_enrichment_relationships_row row =
      (enrichmentPairs row).map (mkEnrichmentWrite row) ∧
    ((enrichmentPairs row).map (fun p => (p.1, p.2.1))).Nodup := by
  constructor
  · simp [create_enrichment_relationships_row, enrichmentPairs,
      List.map_flatMap, List.map_map, Function.comp_def, mkEnrichmentWrite]
  · by_cases h : row "totpop_cy" = 0
    · simp [enrichmentPairs, enrichmentsFor, determine_population_level,
        determine_growth_rate, determine_age_average,
        determine_age_group_representations, determine_wealth_category,
        determine_education_level, determine_crime_level, determine_spending_level,
        age_group_aggregations, education_levels, h]
    · simp [enrichmentPairs, enrichmentsFor, determine_population_level,
        determine_growth_rate, determine_age_average,
        determine_age_group_representations, determine_wealth_category,
        determine_education_level, determine_crime_level, determine_spending_level,
        age_group_aggregations, education_levels, h]

end BizOpps
namespace BizOpps

/-- A per-business failure entry of create_business_nodes. -/
structure BizFailure where
  business : String
  error : String
deriving Repr, DecidableEq

/-- Embeds the summary accumulation of populate_businesses (businesses.py
lines 309-356) over the per-BlockGroup results of create_business_nodes:
each loop iteration executes
  business_count, failed_instances = create_business_nodes(...)
which rebinds both accumulators to the current BlockGroup result, then
  business_count += business_count
doubling the current count, and
  failed_instances.extend(failed_instances)
doubling the current failure list; the previously accumulated values are
discarded.  The printed summary is the final pair. -/
def populate_businesses_summary (results : List (ℕ × List BizFailure)) :
    ℕ × List BizFailure :=
  results.foldl (fun _ r => (r.1 + r.1, r.2 ++ r.2)) (0, [])

/-- Modelled from the spec wording of C9 for comparison: the printed success
count is the sum over all processed BlockGroups and the printed failure list
is the concatenation of every BlockGroup's failed instances. -/
def spec_batch_totals (results : List (ℕ × List BizFailure)) :
    ℕ × List BizFailure :=
  ((results.map Prod.fst).sum, (results.map Prod.snd).flatten)

/-- C9: claimed, the reported summary equals the totals over the whole
batch.  The code instead reports twice the last BlockGroup's results: with a
first BlockGroup creating 3 businesses with one failure and a second
creating 1 with none, it prints success 2 and an empty failure list, not
success 4 with the one failure. -/
theorem C9_summary_not_batch_totals :
    populate_businesses_summary [(3, [⟨"Acme Bakery", "boom"⟩]), (1, [])] = (2, []) ∧
    spec_batch_totals [(3, [⟨"Acme Bakery", "boom"⟩]), (1, [])] =
      (4, [⟨"Acme Bakery", "boom"⟩]) ∧
    populate_businesses_summary [(3, [⟨"Acme Bakery", "boom"⟩]), (1, [])] ≠
      spec_batch_totals [(3, [⟨"Acme Bakery", "boom"⟩]), (1, [])] :=
  ⟨rfl, rfl, by decide⟩

end BizOpps
namespace BizOpps

/-- One row of the raw zipcode geometry table (zipcodes.csv): the ZIP column
and the the_geom well-known-text column. -/
structure ZipRow where
  ZIP : String
  the_geom : String
deriving Repr, DecidableEq

/-- The zipcode geometry table: its rows plus whether the frame carries the
the_geom column at all (create_zipcode_nodes tests for the column before
using it). -/
structure ZipcodeDf where
  rows : List ZipRow
  has_geom_column : Bool
deriving Repr, DecidableEq

/-- Embeds the union at administrative_topology.py lines 96-100: the set
union of the stringified zipcode identifiers of the city table, the
neighborhood table and the raw zipcode table, computed before any node is
created.  A Python set iterates each member exactly once in an unspecified
order; the deduplicated concatenation models it with a definite order. -/
def combined_zipcodes (city_zipcodes neighborhood_zipcodes : List String)
    (zipcode_df : ZipcodeDf) : List String :=
  (city_zipcodes ++ neighborhood_zipcodes ++ zipcode_df.rows.map ZipRow.ZIP).dedup

/-- The properties dict built for one zipcode (administrative_topology.py
lines 106-111): always the zipcode_number key, plus the wkt of the first
matching raw row when the table has rows for it and carries the geometry
column. -/
def zipProperties (zipcode_df : ZipcodeDf) (z : String) : List (String × PyVal) :=
  match zipcode_df.rows.find? (fun r => r.ZIP == z) with
  | some row =>
      if zipcode_df.has_geom_column then
        [("zipcode_number", PyVal.str z), ("wkt", PyVal.str row.the_geom)]
      else [("zipcode_number", PyVal.str z)]
  | none => [("zipcode_number", PyVal.str z)]

/-- A node of the graph store. -/
structure GNode where
  label : String
  props : List (String × PyVal)
deriving Repr, DecidableEq

/-- Whether a stored node matches the MERGE pattern (n:label merge_props). -/
def nodeMatches (label : String) (merge_props : List (String × PyVal)) (n : GNode) : Bool :=
  n.label == label && merge_props.all (fun kv => List.lookup kv.1 n.props == some kv.2)

/-- Replaces the first node satisfying the predicate. -/
def updateFirstNode : List GNode → (GNode → Bool) → (GNode → GNode) → List GNode
  | [], _, _ => []
  | n :: rest, p, f => if p n then f n :: rest else n :: updateFirstNode rest p f

/-- Embeds create_node (construction.py lines 6-40): MERGE on the label and
the match-key properties locates or creates one node, then SET n +=
remaining_props overwrites the non-key properties; under the uniqueness
constraints the pipeline registers, at most one node matches, so the first
match stands for the matched row. -/
def create_node (g : List GNode) (label : String) (properties : List (String × PyVal))
    (match_keys : List String) : List GNode :=
  let merge_props :=
    match_keys.filterMap (fun k => (List.lookup k properties).map (fun v => (k, v)))
  let remaining_props := properties.filter (fun kv => !match_keys.contains kv.1)
  if g.any (nodeMatches label merge_props) then
    updateFirstNode g (nodeMatches label merge_props)
      (fun n => { n with props := mergeProps n.props remaining_props })
  else
    g ++ [⟨label, mergeProps merge_props remaining_props⟩]

/-- A per-zipcode failure entry of create_zipcode_nodes. -/
structure ZipFailure where
  zipcode : String
  error : String
deriving Repr, DecidableEq

/-- The message text of a validation error. -/
def pyErrorMessage : PyError → String
  | .valueError m => m
  | .typeError m => m
  | .keyError k => k
  | .attributeError => "attribute error"

/-- Embeds the per-zipcode loop of create_zipcode_nodes
(administrative_topology.py lines 102-140): for each member of the combined
union, build the properties, validate, and upsert the Zipcode node on the
zipcode_number key; a validation failure is recorded with the zipcode and
the loop continues.  The external store and spatial-layer calls are modelled
as succeeding.  zipcodeStep is one iteration, create_zipcode_nodes the
fold over the combined union. -/
def zipcodeStep (constraints : PyVal) (zipcode_df : ZipcodeDf)
    (acc : List GNode × ℕ × List ZipFailure) (z : String) :
    List GNode × ℕ × List ZipFailure :=
  let properties := zipProperties zipcode_df z
  let node_data :=
    PyVal.dict [("label", PyVal.str "Zipcode"), ("properties", PyVal.dict properties)]
  match validate_data node_data constraints false with
  | .ok _ =>
      (create_node acc.1 "Zipcode" properties ["zipcode_number"],
       acc.2.1 + 1, acc.2.2)
  | .error e => (acc.1, acc.2.1, acc.2.2 ++ [⟨z, pyErrorMessage e⟩])

def create_zipcode_nodes (constraints : PyVal) (zipcode_df : ZipcodeDf)
    (city_zipcodes neighborhood_zipcodes : List String) (g0 : List GNode) :
    List GNode × ℕ × List ZipFailure :=
  (combined_zipcodes city_zipcodes neighborhood_zipcodes zipcode_df).foldl
    (zipcodeStep constraints zipcode_df) (g0, 0, [])

/-- Whether a stored node is a Zipcode node keyed by the given zipcode. -/
def zpred (z : String) (n : GNode) : Bool :=
  n.label == "Zipcode" && List.lookup "zipcode_number" n.props == some (PyVal.str z)

/-- The number of Zipcode nodes with the given key in the store. -/
def countZip (g : List GNode) (z : String) : ℕ := List.countP (zpred z) g

end BizOpps
namespace BizOpps


theorem zipProperties_lookup (zipcode_df : ZipcodeDf) (z : String) :
    List.lookup "zipcode_number" (zipProperties zipcode_df z) = some (PyVal.str z) := by
  unfold zipProperties
  cases zipcode_df.rows.find? (fun r => r.ZIP == z) with
  | none => simp [List.lookup]
  | some row =>
      by_cases h : zipcode_df.has_geom_column
      · simp [h, List.lookup]
      · simp [h, List.lookup]

theorem zip_merge_props (zipcode_df : ZipcodeDf) (z : String) :
    (["zipcode_number"].filterMap
      (fun k => (List.lookup k (zipProperties zipcode_df z)).map (fun v => (k, v)))) =
    [("zipcode_number", PyVal.str z)] := by
  simp [List.filterMap_cons, zipProperties_lookup]

theorem lookup_filter_keys_out (k : String) (ks : List String)
    (l : List (String × PyVal)) (hk : ks.contains k = true) :
    List.lookup k (l.filter (fun kv => !ks.contains kv.1)) = none := by
  induction l with
  | nil => rfl
  | cons kv rest ih =>
      rw [List.filter_cons]
      by_cases hc : ks.contains kv.1 = true
      · have hfalse : (!ks.contains kv.1) = false := by rw [hc]; rfl
        rw [hfalse]
        simpa using ih
      · have hcf : ks.contains kv.1 = false := by
          cases hx : ks.contains kv.1
          · rfl
          · exact absurd hx hc
        have htrue : (!ks.contains kv.1) = true := by rw [hcf]; rfl
        rw [htrue, if_pos rfl]
        have hne : (k == kv.1) = false := by
          apply beq_eq_false_iff_ne.mpr
          intro hkk
          rw [← hkk] at hcf
          rw [hk] at hcf
          exact Bool.noConfusion hcf
        simp only [List.lookup, hne, cond_false]
        exact ih

theorem countP_updateFirstNode (q : GNode → Bool) (g : List GNode)
    (p : GNode → Bool) (f : GNode → GNode) (hf : ∀ n, q (f n) = q n) :
    List.countP q (updateFirstNode g p f) = List.countP q g := by
  induction g with
  | nil => rfl
  | cons n rest ih =>
      unfold updateFirstNode
      by_cases hp : p n = true
      · rw [if_pos hp]
        rw [List.countP_cons, List.countP_cons, hf]
      · rw [if_neg hp]
        rw [List.countP_cons, List.countP_cons, ih]

theorem nodeMatches_zip (z : String) (n : GNode) :
    nodeMatches "Zipcode" [("zipcode_number", PyVal.str z)] n = zpred z n := by
  simp [nodeMatches, zpred]

theorem create_node_zip_other (g : List GNode) (zipcode_df : ZipcodeDf)
    (z z2 : String) (hne : z2 ≠ z) :
    countZip (create_node g "Zipcode" (zipProperties zipcode_df z2) ["zipcode_number"]) z =
      countZip g z := by
  unfold countZip
  simp only [create_node, zip_merge_props]
  set rem := (zipProperties zipcode_df z2).filter
    (fun kv => !(["zipcode_number"].contains kv.1)) with hrem_def
  have hrem : List.lookup "zipcode_number" rem = none := by
    rw [hrem_def]
    exact lookup_filter_keys_out _ _ _ (by decide)
  by_cases h : g.any (nodeMatches "Zipcode" [("zipcode_number", PyVal.str z2)]) = true
  · rw [if_pos h]
    apply countP_updateFirstNode
    intro n
    simp only [zpred, lookup_mergeProps, hrem]
  · rw [if_neg h]
    rw [List.countP_append]
    have hnew : zpred z ⟨"Zipcode", mergeProps [("zipcode_number", PyVal.str z2)] rem⟩
        = false := by
      simp only [zpred, lookup_mergeProps, hrem]
      simp [List.lookup, hne]
    simp [List.countP_cons, hnew]

theorem create_node_zip_fresh (g : List GNode) (zipcode_df : ZipcodeDf)
    (z : String) (hzero : countZip g z = 0) :
    countZip (create_node g "Zipcode" (zipProperties zipcode_df z) ["zipcode_number"]) z
      = 1 := by
  unfold countZip at hzero ⊢
  simp only [create_node, zip_merge_props]
  set rem := (zipProperties zipcode_df z).filter
    (fun kv => !(["zipcode_number"].contains kv.1)) with hrem_def
  have hrem : List.lookup "zipcode_number" rem = none := by
    rw [hrem_def]
    exact lookup_filter_keys_out _ _ _ (by decide)
  have hany : g.any (nodeMatches "Zipcode" [("zipcode_number", PyVal.str z)]) = false := by
    rw [List.any_eq_false]
    intro n hn
    have hq := List.countP_eq_zero.mp hzero n hn
    rw [nodeMatches_zip]
    simpa using hq
  rw [if_neg (by rw [hany]; exact Bool.false_ne_true)]
  rw [List.countP_append]
  have hnew : zpred z ⟨"Zipcode", mergeProps [("zipcode_number", PyVal.str z)] rem⟩
      = true := by
    simp only [zpred, lookup_mergeProps, hrem]
    simp [List.lookup]
  simp [List.countP_cons, hnew, hzero]

theorem zipcodeStep_other (constraints : PyVal) (zipcode_df : ZipcodeDf)
    (acc : List GNode × ℕ × List ZipFailure) (z z2 : String) (hne : z2 ≠ z) :
    countZip (zipcodeStep constraints zipcode_df acc z2).1 z = countZip acc.1 z := by
  simp only [zipcodeStep]
  split
  · exact create_node_zip_other acc.1 zipcode_df z z2 hne
  · rfl

theorem zipcodeFold_other (constraints : PyVal) (zipcode_df : ZipcodeDf)
    (l : List String) (z : String) (hl : ∀ z2 ∈ l, z2 ≠ z) :
    ∀ acc : List GNode × ℕ × List ZipFailure,
      countZip ((l.foldl (zipcodeStep constraints zipcode_df) acc)).1 z =
        countZip acc.1 z := by
  induction l with
  | nil => intro acc; rfl
  | cons z2 rest ih =>
      intro acc
      rw [List.foldl_cons]
      rw [ih (fun x hx => hl x (List.mem_cons_of_mem _ hx))]
      exact zipcodeStep_other constraints zipcode_df acc z z2 (hl z2 (List.mem_cons_self _ _))

end BizOpps
namespace BizOpps

/-- C5: the Zipcode builder computes the union of the zipcode identifiers of
the city table, the neighborhood table and the raw zipcode table before any
node is created, and iterates it exactly once (the union holds a zipcode
referenced anywhere exactly once); consequently, starting from a store
without that key, a zipcode referenced by any of the sources ends up as
exactly one Zipcode node with that key after the run. -/
theorem C5_zipcode_union_dedup
    (city_zipcodes neighborhood_zipcodes : List String) (zipcode_df : ZipcodeDf)
    (constraints : PyVal) (g0 : List GNode) (z : String)
    (hz : z ∈ city_zipcodes ++ neighborhood_zipcodes ++ zipcode_df.rows.map ZipRow.ZIP)
    (hval : validate_data
      (PyVal.dict [("label", PyVal.str "Zipcode"),
        ("properties", PyVal.dict (zipProperties zipcode_df z))]) constraints false
      = .ok ())
    (hg : countZip g0 z = 0) :
    (combined_zipcodes city_zipcodes neighborhood_zipcodes zipcode_df).count z = 1 ∧
    countZip (create_zipcode_nodes constraints zipcode_df city_zipcodes
      neighborhood_zipcodes g0).1 z = 1 := by
  have hcount : (combined_zipcodes city_zipcodes neighborhood_zipcodes zipcode_df).count z
      = 1 := by
    unfold combined_zipcodes
    rw [List.count_dedup]
    rw [if_pos hz]
  refine ⟨hcount, ?_⟩
  have hnd : (combined_zipcodes city_zipcodes neighborhood_zipcodes zipcode_df).Nodup :=
    List.nodup_dedup _
  have hmem : z ∈ combined_zipcodes city_zipcodes neighborhood_zipcodes zipcode_df :=
    List.mem_dedup.mpr hz
  obtain ⟨l1, l2, hsplit⟩ := List.append_of_mem hmem
  unfold create_zipcode_nodes
  rw [hsplit] at hnd ⊢
  rw [List.foldl_append, List.foldl_cons]
  rw [List.nodup_append] at hnd
  obtain ⟨hnd1, hnd2, hdisj⟩ := hnd
  have hz_l2 : z ∉ l2 := (List.nodup_cons.mp hnd2).1
  have hz_l1 : z ∉ l1 := fun hin => hdisj hin (List.mem_cons_self _ _)
  set acc1 := l1.foldl (zipcodeStep constraints zipcode_df)
    (g0, 0, ([] : List ZipFailure)) with hacc1def
  have hacc1 : countZip acc1.1 z = 0 := by
    rw [hacc1def]
    rw [zipcodeFold_other constraints zipcode_df l1 z
      (fun x hx he => hz_l1 (he ▸ hx)) _]
    exact hg
  have hstep : countZip (zipcodeStep constraints zipcode_df acc1 z).1 z = 1 := by
    simp only [zipcodeStep, hval]
    exact create_node_zip_fresh acc1.1 zipcode_df z hacc1
  rw [zipcodeFold_other constraints zipcode_df l2 z
    (fun x hx he => hz_l2 (he ▸ hx)) _]
  exact hstep

end BizOpps
namespace BizOpps

/-- A catalog declaring the Zipcode label with its key and optional
geometry. -/
def C5_constraints : PyVal :=
  .dict [("nodes", .dict [("Zipcode", .dict [("properties", .dict
    [("zipcode_number", .dict [("type", .str "STRING"), ("exists", .bool true)]),
     ("wkt", .dict [("type", .str "STRING")])])])])]

/-- A raw zipcode table holding 92101 with a geometry column. -/
def C5_df : ZipcodeDf := ⟨[⟨"92101", "POLYGON ((0 0, 1 0, 1 1, 0 0))"⟩], true⟩

theorem C5_witness :
    "92101" ∈ ["92101"] ++ ["92101"] ++ C5_df.rows.map ZipRow.ZIP ∧
    validate_data
      (PyVal.dict [("label", PyVal.str "Zipcode"),
        ("properties", PyVal.dict (zipProperties C5_df "92101"))]) C5_constraints false
      = .ok () ∧
    countZip [] "92101" = 0 ∧
    ((combined_zipcodes ["92101"] ["92101"] C5_df).count "92101" = 1 ∧
      countZip (create_zipcode_nodes C5_constraints C5_df ["92101"] ["92101"] []).1
        "92101" = 1) :=
  ⟨by decide, rfl, rfl,
   C5_zipcode_union_dedup ["92101"] ["92101"] C5_df C5_constraints [] "92101"
     (by decide) rfl rfl⟩

end BizOpps
